import Mathlib

/-!
Shallow embedding of the backup-guarded uninstallation subsystem of the
KurServer CLI (`src/kurserver/uninstallers/*.py`, `src/kurserver/utils/backup.py`).

The embedding models:
* the phase-ordered uninstall drivers `BaseUninstaller.uninstall` and
  `NginxUninstaller.uninstall` as functions from an environment of phase
  outcomes to a result flag plus the list of phases actually invoked;
* the service loops `stop_services` / `disable_services`;
* `NginxUninstaller.pre_uninstall_checks`'s disk-space gate;
* the `BackupManager` archive engine (`create_backup`, `list_backups`,
  `restore_backup` path mapping, `cleanup_old_backups`) over a file-system
  abstraction given as the list of existing absolute file paths;
* `MySQLUninstaller.__init__` engine probing and `backup_databases`'s
  database-list parsing and per-database dump loop.
-/

/-- The six phases of `BaseUninstaller.uninstall` (base.py lines 478-530),
in their fixed order. -/
inductive Phase where
  | preCheck
  | backup
  | stopServices
  | disableServices
  | uninstallPackages
  | postCleanup
deriving DecidableEq

/-- A phase is destructive when it stops, disables, removes or cleans up;
the pre-check and the backup phase are non-destructive. -/
def destructivePhase : Phase → Bool
  | Phase.preCheck => false
  | Phase.backup => false
  | Phase.stopServices => true
  | Phase.disableServices => true
  | Phase.uninstallPackages => true
  | Phase.postCleanup => true

/-- Outcomes of the individual phase calls for one uninstall run:
the boolean each phase method returns and the `Optional[str]` that
`create_backup` returns. -/
structure RunEnv where
  preOk : Bool
  backupPath : Option String
  stopOk : Bool
  disableOk : Bool
  packagesOk : Bool
  cleanupOk : Bool

/-- The truthiness test `if not backup_path` applied by the drivers
(base.py line 495, nginx.py line 348): `None` and the empty string are
both falsy in Python. -/
def backupGate : Option String → Bool
  | none => false
  | some s => !s.isEmpty

/-- `BaseUninstaller.uninstall` (base.py lines 478-530): runs the six phases
strictly in order, returning the overall flag together with the list of
phases that were invoked.  Every phase-method failure short-circuits,
including a `stop_services` failure (lines 500-502). -/
def baseUninstall (env : RunEnv) : Bool × List Phase :=
  if env.preOk = false then (false, [Phase.preCheck])
  else if backupGate env.backupPath = false then
    (false, [Phase.preCheck, Phase.backup])
  else if env.stopOk = false then
    (false, [Phase.preCheck, Phase.backup, Phase.stopServices])
  else if env.disableOk = false then
    (false, [Phase.preCheck, Phase.backup, Phase.stopServices, Phase.disableServices])
  else if env.packagesOk = false then
    (false, [Phase.preCheck, Phase.backup, Phase.stopServices, Phase.disableServices,
      Phase.uninstallPackages])
  else if env.cleanupOk = false then
    (false, [Phase.preCheck, Phase.backup, Phase.stopServices, Phase.disableServices,
      Phase.uninstallPackages, Phase.postCleanup])
  else
    (true, [Phase.preCheck, Phase.backup, Phase.stopServices, Phase.disableServices,
      Phase.uninstallPackages, Phase.postCleanup])

/-- `NginxUninstaller.uninstall` (nginx.py lines 331-397): identical phase
order, except that a `stop_services` failure is only logged
(lines 352-354) and the run proceeds to the disable phase. -/
def nginxUninstall (env : RunEnv) : Bool × List Phase :=
  if env.preOk = false then (false, [Phase.preCheck])
  else if backupGate env.backupPath = false then
    (false, [Phase.preCheck, Phase.backup])
  else if env.disableOk = false then
    (false, [Phase.preCheck, Phase.backup, Phase.stopServices, Phase.disableServices])
  else if env.packagesOk = false then
    (false, [Phase.preCheck, Phase.backup, Phase.stopServices, Phase.disableServices,
      Phase.uninstallPackages])
  else if env.cleanupOk = false then
    (false, [Phase.preCheck, Phase.backup, Phase.stopServices, Phase.disableServices,
      Phase.uninstallPackages, Phase.postCleanup])
  else
    (true, [Phase.preCheck, Phase.backup, Phase.stopServices, Phase.disableServices,
      Phase.uninstallPackages, Phase.postCleanup])

/-- One OS service as seen by the service loops: whether
`systemctl is-active` reports it active, whether the stop command
succeeds, and whether the disable command succeeds. -/
structure Service where
  active : Bool
  stopOk : Bool
  disableOk : Bool
deriving DecidableEq

/-- `BaseUninstaller.stop_services` (base.py lines 118-153): for each
service, if it is active, attempt a stop; a stop failure is only counted
as a logged warning (line 142) and never changes the returned flag.
Returns the flag together with the number of warnings logged. -/
def stop_services : List Service → Bool × Nat
  | [] => (true, 0)
  | s :: rest =>
    let r := stop_services rest
    if s.active && !s.stopOk then (r.1, r.2 + 1) else (r.1, r.2)

/-- `BaseUninstaller.disable_services` (base.py lines 388-419): issues a
disable command per service with `check=True`; the first failing command
raises, the exception handler returns `False` (lines 417-419). -/
def disable_services : List Service → Bool
  | [] => true
  | s :: rest => if s.disableOk then disable_services rest else false

/-- The nginx pre-uninstall environment: whether the nginx package is
installed, the computed total byte size of the backup path set, and the
free disk space reported by `statvfs` (nginx.py lines 99-131). -/
structure NginxEnv where
  nginxInstalled : Bool
  backupSetSize : Nat
  freeSpace : Nat

/-- `NginxUninstaller.pre_uninstall_checks` (nginx.py lines 80-131):
fails when nginx is not installed, then fails when the available space
is below the backup-set size plus a 100MB buffer (line 117). -/
def pre_uninstall_checks (e : NginxEnv) : Bool :=
  if e.nginxInstalled = false then false
  else if e.freeSpace < e.backupSetSize + 100 * 1024 * 1024 then false
  else true

/-- `NginxUninstaller.uninstall` driven by the modelled
`pre_uninstall_checks` outcome: the `preOk` field of the environment is
the value the pre-check phase computes from the disk state. -/
def nginxUninstallFull (e : NginxEnv) (env : RunEnv) : Bool × List Phase :=
  nginxUninstall { env with preOk := pre_uninstall_checks e }

/-- `os.path.basename`: the part of the path after the last slash. -/
def basename (p : String) : String :=
  String.mk ((p.data.reverse.takeWhile (fun c => c ≠ '/')).reverse)

/-- `os.path.exists` over a file system given as the list of existing
absolute file paths: a path exists when it is itself a file or when it
is a directory, i.e. a proper prefix (followed by a slash) of a file. -/
def pathExists (fs : List String) (p : String) : Bool :=
  fs.contains p || fs.any (fun f => (p ++ "/").data.isPrefixOf f.data)

/-- `tarfile.TarFile.add(path, arcname=os.path.basename(path))` as called
by `BackupManager.create_backup` (backup.py lines 62-65): a file is stored
under its leaf name; a directory is stored recursively, each contained
file under the directory's leaf name followed by its relative path. -/
def tarAddMembers (fs : List String) (p : String) : List String :=
  if fs.contains p then
    [basename p]
  else
    (fs.filter (fun f => (p ++ "/").data.isPrefixOf f.data)).map
      (fun f => basename p ++ "/" ++ String.mk (f.data.drop (p.data.length + 1)))

/-- The file members of the archive written by
`BackupManager.create_backup(paths)` (backup.py lines 56-67): each input
path that exists is added; paths that do not exist are skipped. -/
def archiveMembers (fs : List String) (paths : List String) : List String :=
  (paths.filter (fun p => pathExists fs p)).flatMap (tarAddMembers fs)

/-- `BackupManager.restore_backup`'s extraction
(`tar.extractall(path="/")`, backup.py lines 185-186): each archive
member is written at the filesystem root under its member name. -/
def restorePaths (members : List String) : List String :=
  members.map (fun m => "/" ++ m)

/-- The manifest record written by `BackupManager.create_backup`
(backup.py lines 70-76). -/
structure Manifest where
  component : String
  timestamp : String
  backupFile : String
  contents : List String

/-- The manifest value `BackupManager.create_backup` writes: the
`contents` field is the input `paths` list verbatim (backup.py line 74),
independent of which paths actually existed. -/
def createBackupManifest (component timestamp : String) (paths : List String) : Manifest :=
  { component := component
    timestamp := timestamp
    backupFile := timestamp ++ "_" ++ component ++ "_backup.tar.gz"
    contents := paths }

/-- One manifest record as read back by `BackupManager.list_backups`. -/
structure BackupInfo where
  timestamp : String
  backupFile : String
deriving DecidableEq

/-- The on-disk state `list_backups` reads: the manifest records found in
the backup directory (in arbitrary directory-listing order) and the set
of archive files that exist on disk. -/
structure BackupStore where
  manifests : List BackupInfo
  files : List String

/-- The sort key of `backups.sort(key=lambda x: x["timestamp"],
reverse=True)` (backup.py line 134): record `a` precedes record `b` when
`a`'s timestamp is the larger string. -/
def newerEq (a b : BackupInfo) : Prop := b.timestamp.data ≤ a.timestamp.data

instance : DecidableRel newerEq := fun a b =>
  inferInstanceAs (Decidable (b.timestamp.data ≤ a.timestamp.data))

instance : IsTotal BackupInfo newerEq :=
  ⟨fun a b => (le_total b.timestamp.data a.timestamp.data)⟩

instance : IsTrans BackupInfo newerEq :=
  ⟨fun _ _ _ hab hbc => le_trans hbc hab⟩

/-- `BackupManager.list_backups` (backup.py lines 95-140): keep every
manifest whose archive file exists on disk, then sort by timestamp,
newest first. -/
def list_backups (store : BackupStore) : List BackupInfo :=
  List.insertionSort newerEq
    (store.manifests.filter (fun m => store.files.contains m.backupFile))

/-- One backup record as seen by `cleanup_old_backups`: its timestamp
key and its `created_at` instant (modelled as an integer time). -/
structure BackupEntry where
  timestamp : String
  createdAt : Int
deriving DecidableEq

/-- `BackupManager.cleanup_old_backups(days_to_keep)` (backup.py lines
238-277): deletes every listed backup whose `created_at` is strictly
before `now - days_to_keep`; the result is the list of surviving
backups. -/
def cleanup_old_backups (now daysToKeep : Int) (backups : List BackupEntry) :
    List BackupEntry :=
  backups.filter (fun b => !(b.createdAt < now - daysToKeep))

/-- The engine configuration `MySQLUninstaller.__init__` stores
(mysql.py lines 26-35): the resolved engine identity, its service name
and its package list. -/
structure MySQLConfig where
  dbType : String
  serviceName : String
  packages : List String
deriving DecidableEq

/-- `MySQLUninstaller.__init__` (mysql.py lines 21-35): probes
`mysql-server` first, then `mariadb-server`; raises (here: `none`) when
neither is installed. -/
def mysqlUninstallerInit (installed : List String) : Option MySQLConfig :=
  if installed.contains "mysql-server" then
    some { dbType := "mysql", serviceName := "mysql",
           packages := ["mysql-server", "mysql-client", "mysql-common",
             "mysql-server-core-*"] }
  else if installed.contains "mariadb-server" then
    some { dbType := "mariadb", serviceName := "mariadb",
           packages := ["mariadb-server", "mariadb-client", "mariadb-common",
             "mariadb-server-core-*"] }
  else
    none

/-- Python `str.strip()` for the ASCII whitespace appearing in command
output. -/
def pyStrip (s : String) : String :=
  String.mk (((s.data.dropWhile (fun c => c = ' ' ∨ c = '\t' ∨ c = '\n' ∨ c = '\r')).reverse.dropWhile
    (fun c => c = ' ' ∨ c = '\t' ∨ c = '\n' ∨ c = '\r')).reverse)

/-- The database-list parsing of `MySQLUninstaller.backup_databases`
(mysql.py line 249): split the stripped `SHOW DATABASES;` output on
newlines, strip each line, and keep the non-empty lines other than the
`Database` header. -/
def parseDatabaseList (stdout : String) : List String :=
  (((pyStrip stdout).data.splitOn '\n').map (fun cs => pyStrip (String.mk cs))).filter
    (fun db => db ≠ "" && db ≠ "Database")

/-- The dump files written by the per-database loop of
`MySQLUninstaller.backup_databases` (mysql.py lines 256-281): one
`<database>.sql` file per parsed database name. -/
def dumpedSqlFiles (stdout : String) : List String :=
  (parseDatabaseList stdout).map (fun db => db ++ ".sql")

/-- The four fixed system schema names of the spec. -/
def systemSchemas : List String :=
  ["information_schema", "performance_schema", "mysql", "sys"]

/-- Modelled from the spec: the dump set §4.3 and Scenario E describe —
one dump per returned database name, excluding the four fixed system
schema names.  Stated for comparison against `dumpedSqlFiles`. -/
def specDumpFiles (stdout : String) : List String :=
  ((parseDatabaseList stdout).filter (fun db => !systemSchemas.contains db)).map
    (fun db => db ++ ".sql")

theorem stop_services_fst (ss : List Service) : (stop_services ss).1 = true := by
  induction ss with
  | nil => rfl
  | cons s rest ih =>
    by_cases h : s.active && !s.stopOk <;> simp [stop_services, h, ih]

theorem stop_services_warns (ss : List Service) (s : Service) (hs : s ∈ ss)
    (ha : s.active = true) (hn : s.stopOk = false) : 0 < (stop_services ss).2 := by
  induction ss with
  | nil => cases hs
  | cons t rest ih =>
    rcases List.mem_cons.mp hs with rfl | hmem
    · simp [stop_services, ha, hn]
    · have hih := ih hmem
      by_cases h : t.active && !t.stopOk
      · simp [stop_services, h]
      · simpa [stop_services, h] using hih

theorem disable_services_false (ss : List Service) (s : Service) (hs : s ∈ ss)
    (hn : s.disableOk = false) : disable_services ss = false := by
  induction ss with
  | nil => cases hs
  | cons t rest ih =>
    rcases List.mem_cons.mp hs with rfl | hmem
    · simp [disable_services, hn]
    · by_cases h : t.disableOk <;> simp [disable_services, h]
      exact ih hmem

/-- C1: for every run of the uninstall driver, base or web-server
variant, no destructive phase (stop, disable, remove packages, post
cleanup) is invoked unless `create_backup` already returned a non-empty
archive path; in particular `uninstall_packages` is never reached when
`create_backup` returned none. -/
theorem C1_backup_gates_destructive_phases (env : RunEnv) (p : Phase)
    (hp : destructivePhase p = true)
    (hmem : p ∈ (baseUninstall env).2 ∨ p ∈ (nginxUninstall env).2) :
    backupGate env.backupPath = true := by
  cases hb : backupGate env.backupPath
  · exfalso
    cases p <;> simp [destructivePhase] at hp <;>
      cases hpre : env.preOk <;> rcases hmem with h | h <;>
        simp [baseUninstall, nginxUninstall, hpre, hb] at h
  · rfl

theorem C1_witness :
    destructivePhase Phase.uninstallPackages = true ∧
    Phase.uninstallPackages ∈
      (baseUninstall ⟨true, some "b", true, true, true, true⟩).2 ∧
    backupGate (some "b") = true :=
  ⟨by decide, by decide,
    C1_backup_gates_destructive_phases ⟨true, some "b", true, true, true, true⟩
      Phase.uninstallPackages (by decide) (Or.inl (by decide))⟩

/-- C4 counterexample: with passing pre-checks, a produced backup and a
failing `stop_services`, the base driver returns false and never reaches
the disable phase — refuting the claim that both drivers proceed past a
`stop_services` failure. -/
theorem C4_counterexample :
    (baseUninstall ⟨true, some "b", false, true, true, true⟩).1 = false ∧
    Phase.disableServices ∉
      (baseUninstall ⟨true, some "b", false, true, true, true⟩).2 := by decide

/-- C4 amended: only the web-server override tolerates a `stop_services`
failure and proceeds to the disable phase; the base driver treats a
`stop_services` failure as a hard failure, short-circuits and returns
false without reaching the disable phase. -/
theorem C4_amended_stop_failure_tolerated_only_by_nginx (env : RunEnv)
    (hpre : env.preOk = true) (hb : backupGate env.backupPath = true)
    (hstop : env.stopOk = false) :
    (baseUninstall env).1 = false ∧
    Phase.disableServices ∉ (baseUninstall env).2 ∧
    Phase.disableServices ∈ (nginxUninstall env).2 := by
  refine ⟨?_, ?_, ?_⟩ <;>
    cases hd : env.disableOk <;> cases hk : env.packagesOk <;> cases hc : env.cleanupOk <;>
      simp [baseUninstall, nginxUninstall, hpre, hb, hstop, hd, hk, hc]

theorem C4_witness :
    (baseUninstall ⟨true, some "b", false, true, true, true⟩).1 = false ∧
    Phase.disableServices ∉
      (baseUninstall ⟨true, some "b", false, true, true, true⟩).2 ∧
    Phase.disableServices ∈
      (nginxUninstall ⟨true, some "b", false, true, true, true⟩).2 :=
  C4_amended_stop_failure_tolerated_only_by_nginx
    ⟨true, some "b", false, true, true, true⟩ (by decide) (by decide) (by decide)

/-- C5: `stop_services` returns true even when an individual
service-stop command fails (the failure is only logged as a warning),
whereas `disable_services` returns false as soon as any single disable
command fails. -/
theorem C5_stop_tolerant_disable_strict (ss : List Service) :
    ((∃ s ∈ ss, s.active = true ∧ s.stopOk = false) →
      (stop_services ss).1 = true ∧ 0 < (stop_services ss).2) ∧
    (∀ s ∈ ss, s.disableOk = false → disable_services ss = false) := by
  constructor
  · rintro ⟨s, hs, ha, hn⟩
    exact ⟨stop_services_fst ss, stop_services_warns ss s hs ha hn⟩
  · intro s hs hn
    exact disable_services_false ss s hs hn

theorem C5_witness :
    ((stop_services [⟨true, false, true⟩, ⟨true, true, false⟩]).1 = true ∧
      0 < (stop_services [⟨true, false, true⟩, ⟨true, true, false⟩]).2) ∧
    disable_services [⟨true, false, true⟩, ⟨true, true, false⟩] = false :=
  ⟨(C5_stop_tolerant_disable_strict [⟨true, false, true⟩, ⟨true, true, false⟩]).1
      ⟨⟨true, false, true⟩, by decide, by decide, by decide⟩,
    (C5_stop_tolerant_disable_strict [⟨true, false, true⟩, ⟨true, true, false⟩]).2
      ⟨true, true, false⟩ (by decide) (by decide)⟩

/-- C8: the web-server profile's pre-uninstall check returns false
whenever the backup-set size plus a 100MB buffer exceeds the free disk
space, and then the uninstall driver returns false without the backup
phase ever being invoked. -/
theorem C8_insufficient_space_blocks_run (e : NginxEnv) (env : RunEnv)
    (h : e.backupSetSize + 100 * 1024 * 1024 > e.freeSpace) :
    pre_uninstall_checks e = false ∧
    (nginxUninstallFull e env).1 = false ∧
    Phase.backup ∉ (nginxUninstallFull e env).2 := by
  have hpre : pre_uninstall_checks e = false := by
    unfold pre_uninstall_checks
    cases hi : e.nginxInstalled <;> simp [Nat.lt_of_lt_of_le h (le_refl _)]
  refine ⟨hpre, ?_, ?_⟩ <;> simp [nginxUninstallFull, nginxUninstall, hpre]

theorem C8_witness :
    (0 : Nat) + 100 * 1024 * 1024 > 0 ∧
    (pre_uninstall_checks ⟨true, 0, 0⟩ = false ∧
      (nginxUninstallFull ⟨true, 0, 0⟩ ⟨true, some "b", true, true, true, true⟩).1 = false ∧
      Phase.backup ∉
        (nginxUninstallFull ⟨true, 0, 0⟩ ⟨true, some "b", true, true, true, true⟩).2) :=
  ⟨by decide,
    C8_insufficient_space_blocks_run ⟨true, 0, 0⟩ ⟨true, some "b", true, true, true, true⟩
      (by decide)⟩

/-- C2: the archive built by `create_backup(["/tmp/a"])` stores the file
`/tmp/a/x.txt` under the flattened member name `a/x.txt` (arcname is the
leaf name), so `restore_backup`'s extraction at `/` recreates it at
`/a/x.txt` — not at its original location `/tmp/a/x.txt`. -/
theorem C2_restore_flattens_to_root :
    restorePaths (archiveMembers ["/tmp/a/x.txt"] ["/tmp/a"]) = ["/a/x.txt"] ∧
    "/tmp/a/x.txt" ∉ restorePaths (archiveMembers ["/tmp/a/x.txt"] ["/tmp/a"]) := by
  decide

/-- C3 counterexample: on a database listing containing
`information_schema`, the dump loop also dumps `information_schema` —
the code never excludes the four fixed system schema names. -/
theorem C3_counterexample :
    dumpedSqlFiles "Database\ninformation_schema\nmydb" ≠
      specDumpFiles "Database\ninformation_schema\nmydb" ∧
    "information_schema.sql" ∈ dumpedSqlFiles "Database\ninformation_schema\nmydb" ∧
    "information_schema" ∈ systemSchemas := by
  decide

theorem append_sql_injective : Function.Injective (fun s : String => s ++ ".sql") := by
  intro a b h
  have h2 : a.data ++ ".sql".data = b.data ++ ".sql".data := by
    simpa [String.data_append] using congrArg String.data h
  exact String.ext (List.append_left_injective ".sql".data h2)

/-- C3 amended: the database-engine profile's extended backup produces
exactly one `.sql` dump per database name returned by the list-databases
query, after dropping blank lines and the `Database` header line; the
four fixed system schema names are *not* excluded. -/
theorem C3_amended_one_dump_per_listed_database (stdout db : String) :
    ((db ++ ".sql") ∈ dumpedSqlFiles stdout ↔ db ∈ parseDatabaseList stdout) ∧
    (dumpedSqlFiles stdout).length = (parseDatabaseList stdout).length := by
  constructor
  · unfold dumpedSqlFiles
    exact List.mem_map_of_injective append_sql_injective
  · simp [dumpedSqlFiles]

/-- C6 counterexample: a single backup older than the cutoff is deleted
by `cleanup_old_backups`, even though it is the most recent backup that
existed beforehand — there is no implicit protection of the newest
backup. -/
theorem C6_counterexample :
    cleanup_old_backups 100 30 [⟨"t1", 10⟩] = [] ∧
    (⟨"t1", 10⟩ : BackupEntry) ∉ cleanup_old_backups 100 30 [⟨"t1", 10⟩] := by
  decide

/-- C6 amended: `cleanup_old_backups(days_to_keep)` keeps exactly those
backups whose `created_at` is not older than `now - days_to_keep`;
selection is purely age-based, with no implicit protection of the newest
backup (it survives iff it is itself not older than the cutoff). -/
theorem C6_amended_age_based_only (now daysToKeep : Int)
    (backups : List BackupEntry) (b : BackupEntry) :
    b ∈ cleanup_old_backups now daysToKeep backups ↔
      b ∈ backups ∧ ¬(b.createdAt < now - daysToKeep) := by
  simp [cleanup_old_backups, List.mem_filter]

/-- C7: `list_backups` returns exactly the manifests whose archive file
exists on disk, sorted by timestamp newest first: every returned entry's
timestamp is at most the first entry's timestamp. -/
theorem C7_list_backups_order_and_exclusion (store : BackupStore)
    (m x hd : BackupInfo) (hhd : (list_backups store).head? = some hd)
    (hx : x ∈ list_backups store) :
    (m ∈ list_backups store ↔
      m ∈ store.manifests ∧ store.files.contains m.backupFile = true) ∧
    x.timestamp.data ≤ hd.timestamp.data := by
  constructor
  · unfold list_backups
    rw [(List.perm_insertionSort newerEq _).mem_iff]
    exact List.mem_filter
  · have hs : List.Sorted newerEq (list_backups store) :=
      List.sorted_insertionSort newerEq
        (store.manifests.filter (fun m => store.files.contains m.backupFile))
    cases hl : list_backups store with
    | nil => rw [hl] at hhd; cases hhd
    | cons a tl =>
      rw [hl] at hhd hx hs
      have ha : a = hd := by simpa using hhd
      subst ha
      rcases List.mem_cons.mp hx with rfl | hmem
      · exact le_refl _
      · exact List.rel_of_sorted_cons hs x hmem

theorem C7_witness :
    ((⟨"t2", "f2"⟩ : BackupInfo) ∈
        list_backups ⟨[⟨"t1", "f1"⟩, ⟨"t3", "f3"⟩, ⟨"t2", "f2"⟩], ["f1", "f2", "f3"]⟩ ↔
      (⟨"t2", "f2"⟩ : BackupInfo) ∈
          ([⟨"t1", "f1"⟩, ⟨"t3", "f3"⟩, ⟨"t2", "f2"⟩] : List BackupInfo) ∧
        (["f1", "f2", "f3"] : List String).contains "f2" = true) ∧
    ("t1" : String).data ≤ ("t3" : String).data :=
  C7_list_backups_order_and_exclusion
    ⟨[⟨"t1", "f1"⟩, ⟨"t3", "f3"⟩, ⟨"t2", "f2"⟩], ["f1", "f2", "f3"]⟩
    ⟨"t2", "f2"⟩ ⟨"t1", "f1"⟩ ⟨"t3", "f3"⟩ (by decide) (by decide)

/-- C9: constructing the database-engine profile probes `mysql-server`
first, then `mariadb-server`, stores the resolved engine identity,
service name and package list of whichever is installed, and fails
construction when neither server package is installed. -/
theorem C9_engine_probe (installed : List String) :
    (installed.contains "mysql-server" = true →
      mysqlUninstallerInit installed = some ⟨"mysql", "mysql",
        ["mysql-server", "mysql-client", "mysql-common", "mysql-server-core-*"]⟩) ∧
    (installed.contains "mysql-server" = false →
      installed.contains "mariadb-server" = true →
      mysqlUninstallerInit installed = some ⟨"mariadb", "mariadb",
        ["mariadb-server", "mariadb-client", "mariadb-common", "mariadb-server-core-*"]⟩) ∧
    (installed.contains "mysql-server" = false →
      installed.contains "mariadb-server" = false →
      mysqlUninstallerInit installed = none) :=
  ⟨fun h1 => by
      have h1' : "mysql-server" ∈ installed := by simpa using h1
      simp [mysqlUninstallerInit, h1'],
   fun h1 h2 => by
      have h1' : "mysql-server" ∉ installed := by simpa using h1
      have h2' : "mariadb-server" ∈ installed := by simpa using h2
      simp [mysqlUninstallerInit, h1', h2'],
   fun h1 h2 => by
      have h1' : "mysql-server" ∉ installed := by simpa using h1
      have h2' : "mariadb-server" ∉ installed := by simpa using h2
      simp [mysqlUninstallerInit, h1', h2']⟩

theorem C9_witness :
    (["mariadb-server"] : List String).contains "mysql-server" = false ∧
    (["mariadb-server"] : List String).contains "mariadb-server" = true ∧
    mysqlUninstallerInit ["mariadb-server"] = some ⟨"mariadb", "mariadb",
      ["mariadb-server", "mariadb-client", "mariadb-common", "mariadb-server-core-*"]⟩ :=
  ⟨by decide, by decide,
    (C9_engine_probe ["mariadb-server"]).2.1 (by decide) (by decide)⟩

/-- C10: for every call to `create_backup(paths)`, the manifest's
`contents` field is the input `paths` list verbatim, while the archive
only receives members from the paths that exist — so skipping a
non-existent path changes the archive not at all, and the manifest may
list entries with no corresponding archive member. -/
theorem C10_manifest_lists_paths_verbatim (component timestamp : String)
    (paths fs : List String) :
    (createBackupManifest component timestamp paths).contents = paths ∧
    archiveMembers fs paths =
      archiveMembers fs (paths.filter (fun p => pathExists fs p)) := by
  refine ⟨rfl, ?_⟩
  simp [archiveMembers, List.filter_filter]
